import Mathlib

/-!
Verification of the ordinary-transaction execution core of the
ton-labs-executor repository.  The repository ships the VM setup helper
(src/vmsetup.rs) and the test suite (src/tests/test_ordinary_transaction.rs);
the executor module itself (fee calculator, stack builder, phase engine) is
exercised only through those tests, so its logic is modelled here from the
specification, with the test suite fixing every concrete constant.
All amounts are nanograms represented as Nat; machine arithmetic in the
source is checked (never wrapping), so Nat is faithful on the in-range
values the tests exercise.
-/

namespace TonExec

/-- Message-forwarding price table, from the blockchain configuration.
Modelled from the spec: lump sum + per-bit + per-cell prices and the mine
fraction (fixed point over 2^16). -/
structure MsgForwardPrices where
  lump_price : Nat
  bit_price : Nat
  cell_price : Nat
  first_frac : Nat
deriving Repr, DecidableEq

/-- Gas price table, from the blockchain configuration.
Modelled from the spec: gas price is a fixed-point price per 2^16 gas
units; a flat minimum price applies up to a flat limit; external messages
get a fixed gas credit. -/
structure GasLimitsPrices where
  gas_price : Nat
  flat_gas_limit : Nat
  flat_gas_price : Nat
  gas_credit : Nat
deriving Repr, DecidableEq

/-- Immutable blockchain-wide configuration consulted by the executor. -/
structure BlockchainConfig where
  fwd_prices : MsgForwardPrices
  gas_prices : GasLimitsPrices
deriving Repr, DecidableEq

/-- Default masterchain configuration (BlockchainConfig::default in the
source): the constants are pinned by the test suite, where a minimal
message costs 10000000 in forward fees with a 3333282 mine share, gas
costs 10000 per unit above a flat 1000000 for the first 100 units, and
external messages receive a 10000-unit gas credit. -/
def defaultConfig : BlockchainConfig :=
  { fwd_prices :=
      { lump_price := 10000000
      , bit_price := 655360000
      , cell_price := 65536000000
      , first_frac := 21845 }
  , gas_prices :=
      { gas_price := 655360000
      , flat_gas_limit := 100
      , flat_gas_price := 1000000
      , gas_credit := 10000 } }

/-- Modelled from the spec: gas_fee(gas_used, prices) — if gas_used is at
most the flat gas limit the fee is the flat gas price, otherwise
gas_used times the fixed-point gas price with the exact shift-based
rounding (price is per 2^16 gas units). -/
def gasFee (p : GasLimitsPrices) (gas_used : Nat) : Nat :=
  if gas_used ≤ p.flat_gas_limit then p.flat_gas_price
  else gas_used * p.gas_price / 65536

/-- Modelled from the spec: forward fee of a message of the given payload
size (bits and cells below the root cell), lump_sum + per_bit*bits +
per_cell*cells with exact fixed-point rounding up. -/
def msgFwdFee (p : MsgForwardPrices) (bits cells : Nat) : Nat :=
  p.lump_price + (p.bit_price * bits + p.cell_price * cells + 65535) / 65536

/-- Modelled from the spec: the mine share of a forward fee F is the
configured fraction of it, floor(F * first_frac / 2^16); the remaining
share is F minus the mine share. -/
def mineFee (p : MsgForwardPrices) (fwd : Nat) : Nat :=
  fwd * p.first_frac / 65536

/-- Opaque slice value (SliceData).  The cell format is an external
collaborator, so a slice is either the default empty slice or an opaque
payload identified by a tag. -/
inductive Slice
  | empty
  | payload (id : Nat)
deriving Repr, DecidableEq

/-- Message header, one of the source message variants: Internal carries
value, bounce flag, ihr and forward fees and creation logical
time/timestamp; External-Inbound carries only a destination and an import
fee.  Addresses are opaque identifiers. -/
inductive MsgHeader
  | internal (src dst : Nat) (value : Nat) (bounce : Bool)
      (ihr_fee fwd_fee : Nat) (created_lt created_at : Nat)
  | extIn (dst : Nat) (import_fee : Nat)
deriving Repr, DecidableEq

/-- Message: a header plus an optional body slice. -/
structure Message where
  header : MsgHeader
  body : Option Slice
deriving Repr, DecidableEq

/-- Value in grams carried by a message: the declared value of an
Internal message, zero for an External-Inbound message. -/
def Message.valueGrams (m : Message) : Nat :=
  match m.header with
  | .internal _ _ v _ _ _ _ _ => v
  | .extIn _ _ => 0

/-- True for an External-Inbound message. -/
def Message.isExtIn (m : Message) : Bool :=
  match m.header with
  | .internal _ _ _ _ _ _ _ _ => false
  | .extIn _ _ => true

/-- Body slice of a message, the default empty slice when absent
(msg.body().unwrap_or_default() in the tests). -/
def Message.bodySlice (m : Message) : Slice :=
  m.body.getD Slice.empty

/-- Account activation status. -/
inductive AccountStatus
  | uninit
  | active
  | frozen
  | nonexist
deriving Repr, DecidableEq

/-- On-chain account state.  Code and data cells are opaque (identified by
tags); storage statistics live behind the opaque cell format, so the
storage fee derived from them enters the executor as an input. -/
structure Account where
  addr : Nat
  balance : Nat
  code : Option Nat
  data : Option Nat
  last_tr_time : Nat
  last_paid : Nat
  due_payment : Nat
  status : AccountStatus
deriving Repr, DecidableEq

/-- Opaque cell value.  Serialization of a message into a cell is an
opaque injective operation of the external cell library, so a cell is
either the serialization of a message or a raw cell identified by a tag
(code and data cells). -/
inductive CellVal
  | msgCell (m : Message)
  | raw (id : Nat)
deriving Repr, DecidableEq

/-- Item of the TVM stack. -/
inductive StackItem
  | int (v : Int)
  | cell (c : CellVal)
  | slice (s : Slice)
deriving Repr, DecidableEq

/-- Modelled from the spec: build_stack(message, account) of the missing
executor module.  The stack is listed bottom-to-top (head of the list is
the bottom): account balance, message value (zero if none or external),
the full serialized message as a cell, the message body slice, and the
selector flag 0 for internal, -1 for external-inbound.  Without a message
(the tick-tock case, out of the scope of the spec) only balance, zero
value and flag 1 are pushed. -/
def build_stack (msg : Option Message) (acc : Account) : List StackItem :=
  match msg with
  | some m =>
      [ StackItem.int (acc.balance : Int)
      , StackItem.int (m.valueGrams : Int)
      , StackItem.cell (CellVal.msgCell m)
      , StackItem.slice m.bodySlice
      , StackItem.int (if m.isExtIn then (-1 : Int) else 0) ]
  | none =>
      [ StackItem.int (acc.balance : Int)
      , StackItem.int 0
      , StackItem.int 1 ]

/-- Output action emitted by the interpreter: a send-message action with
its mode flags and the outbound message; the serialized size of the
message (payload bits and cells below the root) is produced by the opaque
cell library, so it accompanies the action as data. -/
inductive OutAction
  | sendMsg (mode : Nat) (msg : Message) (bits cells : Nat)
deriving Repr, DecidableEq

/-- Result of the opaque external interpreter run: success flag, exit
code, gas actually used, and the committed list of output actions. -/
structure VmOutcome where
  success : Bool
  exit_code : Int
  gas_used : Nat
  actions : List OutAction
deriving Repr, DecidableEq

/-- Rewrites an internal message header for sending: the carried value is
reduced to newValue, the forward-fee field receives the remaining (non
mine) share, and the creation timestamp is set to the block time.  An
external header is left unchanged (it carries no value). -/
def setOutboundFields (m : Message) (newValue remainFee created_at : Nat) :
    Message :=
  match m.header with
  | .internal src dst _ bounce ihr _ lt _ =>
      { m with header := .internal src dst newValue bounce ihr remainFee lt created_at }
  | .extIn _ _ => m

/-- Running accumulator of the action phase: working balance, emitted
messages in order, and the counters recorded into TrActionPhase. -/
structure ActState where
  balance : Nat
  msgs : List Message
  tot_actions : Nat
  msgs_created : Nat
  total_fwd_fees : Nat
  total_action_fees : Nat
deriving Repr, DecidableEq

/-- Initial action-phase state over the given balance. -/
def ActState.start (balance : Nat) : ActState :=
  ⟨balance, [], 0, 0, 0, 0⟩

/-- Modelled from the spec: the action phase of the missing executor
module applies send-message actions in emission order.  An ordinary send
deducts the declared value from the balance, splits the forward fee into
mine (kept as action fee) and remaining (written into the outbound
header), and the message leaves with value minus the forward fee.  A send
with the all-balance mode bit (128) sends the whole remaining balance,
zeroes the account, and every action queued after it is ignored.  If the
balance cannot cover a requested send the whole phase fails (none). -/
def processActions (p : MsgForwardPrices) (now : Nat) :
    List OutAction → ActState → Option ActState
  | [], st => some st
  | OutAction.sendMsg mode m bits cells :: rest, st =>
      let fwd := msgFwdFee p bits cells
      let mine := mineFee p fwd
      if mode.land 128 = 0 then
        let v := m.valueGrams
        if st.balance < v ∨ v < fwd then none
        else processActions p now rest
          { balance := st.balance - v
          , msgs := st.msgs ++ [setOutboundFields m (v - fwd) (fwd - mine) now]
          , tot_actions := st.tot_actions + 1
          , msgs_created := st.msgs_created + 1
          , total_fwd_fees := st.total_fwd_fees + fwd
          , total_action_fees := st.total_action_fees + mine }
      else
        if st.balance < fwd then none
        else some
          { balance := 0
          , msgs := st.msgs ++ [setOutboundFields m (st.balance - fwd) (fwd - mine) now]
          , tot_actions := st.tot_actions + 1
          , msgs_created := st.msgs_created + 1
          , total_fwd_fees := st.total_fwd_fees + fwd
          , total_action_fees := st.total_action_fees + mine }

/-- Storage-phase record of the transaction description. -/
structure TrStoragePhase where
  fees_collected : Nat
  fees_due : Nat
deriving Repr, DecidableEq

/-- Credit-phase record of the transaction description. -/
structure TrCreditPhase where
  due_fees_collected : Nat
  credit : Nat
deriving Repr, DecidableEq

/-- Reason the compute phase was skipped. -/
inductive ComputeSkipReason
  | noState
  | badState
  | noGas
deriving Repr, DecidableEq

/-- Compute-phase record: skipped with a reason, or a VM run with its
success flag, exit code, gas accounting and the gas credit granted to an
external message. -/
inductive TrComputePhase
  | skipped (reason : ComputeSkipReason)
  | vm (success : Bool) (exit_code : Int) (gas_used gas_limit : Nat)
      (gas_credit : Option Nat) (gas_fees : Nat)
deriving Repr, DecidableEq

/-- Action-phase record of the transaction description. -/
structure TrActionPhase where
  success : Bool
  valid : Bool
  tot_actions : Nat
  msgs_created : Nat
  total_fwd_fees : Nat
  total_action_fees : Nat
deriving Repr, DecidableEq

/-- Ordinary transaction description, phase by phase. -/
structure TransactionDescrOrdinary where
  storage_ph : Option TrStoragePhase
  credit_ph : Option TrCreditPhase
  compute_ph : TrComputePhase
  action : Option TrActionPhase
  credit_first : Bool
  aborted : Bool
  destroyed : Bool
deriving Repr, DecidableEq

/-- The transaction record returned by the executor: the ordinary
description, the total fees collected, the outbound messages in order,
and the balance of the persisted account after execution. -/
structure Transaction where
  descr : TransactionDescrOrdinary
  total_fees : Nat
  out_msgs : List Message
  end_balance : Nat
deriving Repr, DecidableEq

/-- Outcome of the storage phase. -/
structure StorageOut where
  balance : Nat
  collected : Nat
  due : Nat
deriving Repr, DecidableEq

/-- Modelled from the spec: the storage phase charges the storage fee
plus any prior debt, applying the maximal possible charge; the unpaid
remainder stays recorded as due debt. -/
def storagePhase (balance fee due0 : Nat) : StorageOut :=
  let total := fee + due0
  let charged := min balance total
  ⟨balance - charged, charged, total - charged⟩

/-- Outcome of the credit phase. -/
structure CreditOut where
  balance : Nat
  due : Nat
  collected : Nat
deriving Repr, DecidableEq

/-- Modelled from the spec: the credit phase credits the value of the
inbound internal message minus a due-payment deduction when the account
is in debt; the deduction is collected as a fee. -/
def creditPhase (balance due v : Nat) : CreditOut :=
  let coll := min due v
  ⟨balance + (v - coll), due - coll, coll⟩

/-- State after the storage and credit phases, before compute. -/
structure PreComputeState where
  balance : Nat
  storage_collected : Nat
  due_left : Nat
  credit_ph : Option TrCreditPhase
deriving Repr, DecidableEq

/-- Inputs of one executor run.  The account and inbound message are the
transparent inputs; the storage fee (derived from opaque storage
statistics and the price table), the serialized size of the inbound
message, and the interpreter outcome are the outputs of the opaque
external collaborators for this input. -/
structure ExecutorInputs where
  acc : Account
  msg : Message
  msg_bits : Nat
  msg_cells : Nat
  storage_fee : Nat
  vm : VmOutcome
deriving Repr, DecidableEq

/-- Modelled from the spec: storage and credit phases of the missing
executor module.  The credit phase runs only for an internal inbound
message; when credit_first is set it runs before the storage phase,
otherwise after it (so the storage debt is deducted from the credited
value). -/
def storageCreditPhases (inp : ExecutorInputs) (credit_first : Bool) :
    PreComputeState :=
  if inp.msg.isExtIn then
    let s := storagePhase inp.acc.balance inp.storage_fee inp.acc.due_payment
    ⟨s.balance, s.collected, s.due, none⟩
  else
    let v := inp.msg.valueGrams
    if credit_first then
      let c := creditPhase inp.acc.balance inp.acc.due_payment v
      let s := storagePhase c.balance inp.storage_fee c.due
      ⟨s.balance, s.collected, s.due, some ⟨c.collected, v - c.collected⟩⟩
    else
      let s := storagePhase inp.acc.balance inp.storage_fee inp.acc.due_payment
      let c := creditPhase s.balance s.due v
      ⟨c.balance, s.collected, c.due, some ⟨c.collected, v - c.collected⟩⟩

/-- Due fees collected by the credit phase, zero when that phase is
absent. -/
def dueCollectedOf (pre : PreComputeState) : Nat :=
  match pre.credit_ph with
  | some c => c.due_fees_collected
  | none => 0

/-- Forward fee charged on importing an external inbound message, zero
for an internal message. -/
def inFwdFeeOf (cfg : BlockchainConfig) (inp : ExecutorInputs) : Nat :=
  if inp.msg.isExtIn then msgFwdFee cfg.fwd_prices inp.msg_bits inp.msg_cells
  else 0

/-- Modelled from the spec: the ordinary transaction executor of the
missing executor module.  Phases run in order (storage/credit per
credit_first, import fee for an external message, compute, action); the
compute phase is skipped when the account has no code; the gas fee is
charged whether or not the VM succeeded; the action phase runs only on VM
success and aborts the transaction when it fails; per the test suite, a
transaction aborted in the compute phase leaves the persisted account
unchanged, while total_fees still records every fee collected. -/
def executeOrd (cfg : BlockchainConfig) (inp : ExecutorInputs)
    (block_ut : Nat) (credit_first : Bool) : Transaction :=
  let pre := storageCreditPhases inp credit_first
  let stPh : Option TrStoragePhase := some ⟨pre.storage_collected, pre.due_left⟩
  let inFwd := inFwdFeeOf cfg inp
  let baseFees := pre.storage_collected + dueCollectedOf pre
  if pre.balance < inFwd then
    { descr := { storage_ph := stPh, credit_ph := pre.credit_ph
               , compute_ph := .skipped .noGas, action := none
               , credit_first := credit_first, aborted := true, destroyed := false }
    , total_fees := baseFees
    , out_msgs := []
    , end_balance := inp.acc.balance }
  else
    let bal2 := pre.balance - inFwd
    match inp.acc.code with
    | none =>
      { descr := { storage_ph := stPh, credit_ph := pre.credit_ph
                 , compute_ph := .skipped .noState, action := none
                 , credit_first := credit_first, aborted := true, destroyed := false }
      , total_fees := baseFees + inFwd
      , out_msgs := []
      , end_balance := inp.acc.balance }
    | some _ =>
      let gfee := gasFee cfg.gas_prices inp.vm.gas_used
      let bal3 := bal2 - min bal2 gfee
      let gcredit : Option Nat :=
        if inp.msg.isExtIn then some cfg.gas_prices.gas_credit else none
      let cp := TrComputePhase.vm inp.vm.success inp.vm.exit_code
        inp.vm.gas_used 0 gcredit gfee
      if inp.vm.success then
        match processActions cfg.fwd_prices block_ut inp.vm.actions
            (ActState.start bal3) with
        | some st =>
          { descr := { storage_ph := stPh, credit_ph := pre.credit_ph
                     , compute_ph := cp
                     , action := some ⟨true, true, st.tot_actions, st.msgs_created,
                         st.total_fwd_fees, st.total_action_fees⟩
                     , credit_first := credit_first, aborted := false, destroyed := false }
          , total_fees := baseFees + inFwd + gfee + st.total_action_fees
          , out_msgs := st.msgs
          , end_balance := st.balance }
        | none =>
          { descr := { storage_ph := stPh, credit_ph := pre.credit_ph
                     , compute_ph := cp
                     , action := some ⟨false, false, 0, 0, 0, 0⟩
                     , credit_first := credit_first, aborted := true, destroyed := false }
          , total_fees := baseFees + inFwd + gfee
          , out_msgs := []
          , end_balance := bal3 }
      else
        { descr := { storage_ph := stPh, credit_ph := pre.credit_ph
                   , compute_ph := cp, action := none
                   , credit_first := credit_first, aborted := true, destroyed := false }
        , total_fees := baseFees + inFwd + gfee
        , out_msgs := []
        , end_balance := inp.acc.balance }

/-- Save list of TVM control registers (ton_vm SaveList), a mapping from
register index to stored item. -/
structure SaveList where
  regs : Nat → Option StackItem

/-- Empty save list (SaveList::new). -/
def SaveList.new : SaveList := ⟨fun _ => none⟩

/-- Stores an item into register i (SaveList::put). -/
def SaveList.put (sl : SaveList) (i : Nat) (x : StackItem) : SaveList :=
  ⟨fun j => if j = i then some x else sl.regs j⟩

/-- The external TVM engine as visible to VMSetup before setup: only its
trace flag is mutated (Engine::set_trace). -/
structure Engine where
  trace : Nat

/-- Engine::new starts with tracing off. -/
def Engine.new : Engine := ⟨0⟩

/-- Engine::TRACE_ALL, an opaque nonzero bit mask of the external
interpreter; only the facts that set_debug(true) assigns it and
set_debug(false) assigns 0 matter here. -/
def Engine.TRACE_ALL : Nat := 255

/-- Engine::set_trace. -/
def Engine.set_trace (e : Engine) (t : Nat) : Engine := { e with trace := t }

/-- Opaque gas-state value of the external interpreter (ton_vm Gas). -/
structure Gas where
  id : Nat
deriving Repr, DecidableEq

/-- Gas::empty. -/
def Gas.empty : Gas := ⟨0⟩

/-- The engine as returned by Engine::setup: code, control registers,
stack and gas are the inputs the external interpreter consumes; the trace
flag is carried alongside for diagnostics. -/
structure SetupVm where
  trace : Nat
  code : Slice
  ctrls : Option SaveList
  stack : Option (List StackItem)
  gas : Option Gas

/-- Engine::setup packages the deterministic execution request together
with the engine's trace flag. -/
def Engine.setup (e : Engine) (code : Slice) (ctrls : Option SaveList)
    (stack : Option (List StackItem)) (gas : Option Gas) : SetupVm :=
  ⟨e.trace, code, ctrls, stack, gas⟩

/-- Builder for the virtual machine engine (struct VMSetup of
src/vmsetup.rs): engine, contract code, control registers, optional
stack and gas. -/
structure VMSetup where
  vm : Engine
  code : Slice
  ctrls : SaveList
  stack : Option (List StackItem)
  gas : Option Gas

/-- VMSetup::new, with a fresh engine, empty registers, no stack and
empty gas. -/
def VMSetup.new (code : Slice) : VMSetup :=
  { vm := Engine.new, code := code, ctrls := SaveList.new
  , stack := none, gas := some Gas.empty }

/-- VMSetup::set_contract_info stores the smart-contract info item into
register c7 (the conversion of the info into a stack item is an opaque
operation of the external library, so the item arrives converted). -/
def VMSetup.set_contract_info (s : VMSetup) (sci : StackItem) : VMSetup :=
  { s with ctrls := s.ctrls.put 7 sci }

/-- VMSetup::set_data stores the persistent data cell into register c4. -/
def VMSetup.set_data (s : VMSetup) (data : CellVal) : VMSetup :=
  { s with ctrls := s.ctrls.put 4 (StackItem.cell data) }

/-- VMSetup::set_stack. -/
def VMSetup.set_stack (s : VMSetup) (stack : List StackItem) : VMSetup :=
  { s with stack := some stack }

/-- VMSetup::set_gas. -/
def VMSetup.set_gas (s : VMSetup) (gas : Gas) : VMSetup :=
  { s with gas := some gas }

/-- VMSetup::set_debug sets the trace flag of the engine to TRACE_ALL
when enabled and to 0 otherwise. -/
def VMSetup.set_debug (s : VMSetup) (enable : Bool) : VMSetup :=
  if enable then { s with vm := s.vm.set_trace Engine.TRACE_ALL }
  else { s with vm := s.vm.set_trace 0 }

/-- VMSetup::create hands code, registers, stack and gas to
Engine::setup. -/
def VMSetup.create (s : VMSetup) : SetupVm :=
  s.vm.setup s.code (some s.ctrls) s.stack s.gas

/-- The deterministic part of a set-up engine: everything the external
interpreter consumes (code, control registers, stack, gas) — by the
interface contract the trace flag is diagnostic only. -/
def SetupVm.detInputs (v : SetupVm) :
    Slice × Option SaveList × Option (List StackItem) × Option Gas :=
  (v.code, v.ctrls, v.stack, v.gas)

/-- Block logical time used throughout the test suite. -/
def BLOCK_LT : Nat := 1000000000

/-- Unix time of the accounts created by the test suite. -/
def ACCOUNT_UT : Nat := 1572169011

/-- Unix time of the block in the test suite. -/
def BLOCK_UT : Nat := 1576526553

/-- Forward-fee constant written into internal test messages. -/
def INTERNAL_FWD_FEE : Nat := 5

/-- create_int_msg of the test suite: internal header with the given
source, destination, value, bounce flag and creation logical time;
ihr disabled with zero ihr fee, forward fee 5, creation time 0, no body. -/
def create_int_msg (src dst v : Nat) (bounce : Bool) (lt : Nat) : Message :=
  { header := .internal src dst v bounce 0 INTERNAL_FWD_FEE lt 0
  , body := none }

/-- create_test_external_msg of the test suite: external-inbound header
to the 0x11 account with zero import fee and a default (empty) body. -/
def create_test_external_msg : Message :=
  { header := .extIn 0x11 0, body := some Slice.empty }

/-- create_test_external_msg_with_int of the test suite: external-inbound
message whose body is the serialization of an internal transfer (an
opaque payload slice here). -/
def create_test_external_msg_with_int : Message :=
  { header := .extIn 0x11 0, body := some (Slice.payload 1) }

/-- create_test_account of the test suite: active account with the given
balance and (opaque) code and data cells, last transaction time 0,
storage last paid at ACCOUNT_UT, no debt. -/
def create_test_account (amount addr codeId dataId : Nat) : Account :=
  { addr := addr, balance := amount, code := some codeId, data := some dataId
  , last_tr_time := 0, last_paid := ACCOUNT_UT, due_payment := 0
  , status := .active }

/-- Scenario of test_trexecutor_with_bad_code: external message against
the 2000000000-balance account whose code fails on a malformed data
read; the opaque collaborators report a 285179103 storage fee, a minimal
serialized inbound message, and a VM run ending with exit code 9 after
698 gas units with nothing committed. -/
def badCodeInputs : ExecutorInputs :=
  { acc := create_test_account 2000000000 0x11 1 2
  , msg := create_test_external_msg
  , msg_bits := 0, msg_cells := 0
  , storage_fee := 285179103
  , vm := { success := false, exit_code := 9, gas_used := 698, actions := [] } }

/-- Transaction produced for the bad-code scenario (credit_first true as
in the test). -/
def badCodeTrans : Transaction := executeOrd defaultConfig badCodeInputs BLOCK_UT true

/-- First internal message sent by the wallet test code (value
50000000, no bounce). -/
def code1Msg1 : Message := create_int_msg 0x11 0x33 50000000 false (BLOCK_LT + 2)

/-- Second internal message sent by the wallet test code (value
100000000, bounce). -/
def code1Msg2 : Message := create_int_msg 0x11 0x33 100000000 true (BLOCK_LT + 3)

/-- Scenario of test_trexecutor_active_acc_with_code1: the same account
with correct code; the VM succeeds after 1307 gas units and commits the
two ordinary sends; storage fee 289434515. -/
def code1Inputs : ExecutorInputs :=
  { acc := create_test_account 2000000000 0x11 1 2
  , msg := create_test_external_msg
  , msg_bits := 0, msg_cells := 0
  , storage_fee := 289434515
  , vm := { success := true, exit_code := 0, gas_used := 1307
          , actions := [ OutAction.sendMsg 0 code1Msg1 0 0
                       , OutAction.sendMsg 0 code1Msg2 0 0 ] } }

/-- Transaction produced for the code1 scenario. -/
def code1Trans : Transaction := executeOrd defaultConfig code1Inputs BLOCK_UT true

/-- Scenario of active_acc_send_all_balance with the trailing
second-send-and-throw ending: a 10000000000-balance account sends its
whole balance with the all-balance mode bit; the committed action list
carries a further send queued after it (which must be ignored).  The
storage fee reported for this account is 76796891 and the VM uses 1500
gas units. -/
def sendAllInputs : ExecutorInputs :=
  { acc := create_test_account 10000000000 0x11 1 2
  , msg := create_test_external_msg_with_int
  , msg_bits := 0, msg_cells := 0
  , storage_fee := 76796891
  , vm := { success := true, exit_code := 0, gas_used := 1500
          , actions := [ OutAction.sendMsg 128 (create_int_msg 0x11 0x22 10000000000 false (BLOCK_LT + 2)) 0 0
                       , OutAction.sendMsg 10 (create_int_msg 0x11 0x22 0 false (BLOCK_LT + 2)) 0 0 ] } }

/-- Transaction produced for the send-all scenario (credit_first false
as in the test). -/
def sendAllTrans : Transaction := executeOrd defaultConfig sendAllInputs BLOCK_UT false

/-- Scenario of test_trexecutor_active_acc_with_zero_balance: internal
message of value 1000000000 against an active account with zero balance,
credit_first false; storage fee 76796891; the VM succeeds within the
flat gas range and commits no action. -/
def zeroBalanceInputs : ExecutorInputs :=
  { acc := create_test_account 0 0x11 1 2
  , msg := create_int_msg 0x33 0x11 1000000000 false 0
  , msg_bits := 0, msg_cells := 0
  , storage_fee := 76796891
  , vm := { success := true, exit_code := 0, gas_used := 50, actions := [] } }

/-- Transaction produced for the zero-balance scenario. -/
def zeroBalanceTrans : Transaction := executeOrd defaultConfig zeroBalanceInputs BLOCK_UT false

/-- Storage fees collected, read from the transaction description. -/
def Transaction.storageFeesCollected (t : Transaction) : Nat :=
  match t.descr.storage_ph with
  | some s => s.fees_collected
  | none => 0

/-- Due fees collected by the credit phase, read from the description. -/
def Transaction.dueFeesCollected (t : Transaction) : Nat :=
  match t.descr.credit_ph with
  | some c => c.due_fees_collected
  | none => 0

/-- Gas fees, read from the compute-phase record (zero when skipped). -/
def Transaction.computeGasFees (t : Transaction) : Nat :=
  match t.descr.compute_ph with
  | .vm _ _ _ _ _ gf => gf
  | .skipped _ => 0

/-- Total action (mine) fees, read from the action-phase record. -/
def Transaction.actionMineFees (t : Transaction) : Nat :=
  match t.descr.action with
  | some a => a.total_action_fees
  | none => 0

/-- C2: build_stack pushes, bottom-to-top, the account balance as an
integer, the message value as an integer (zero when the message is
external), the full serialized message as a cell, the message body as a
slice, and a final flag integer that is 0 for an internal message and -1
for an external-inbound message, for every message/account input. -/
theorem build_stack_contract (m : Message) (acc : Account) :
    build_stack (some m) acc =
      [ StackItem.int (acc.balance : Int)
      , StackItem.int (if m.isExtIn then 0 else (m.valueGrams : Int))
      , StackItem.cell (CellVal.msgCell m)
      , StackItem.slice m.bodySlice
      , StackItem.int (if m.isExtIn then -1 else 0) ] := by
  rcases m with ⟨h, b⟩
  cases h <;> simp [build_stack, Message.isExtIn, Message.valueGrams]

/-- C6: under the default configuration a gas charge of at most the flat
gas limit (100 units) costs the flat gas price 1000000, and any larger
charge costs exactly gas_used times 10000, the fixed-point price
655360000 per 65536 units evaluated with exact integer arithmetic. -/
theorem gasFee_flat_or_linear (g : Nat) :
    (g ≤ 100 → gasFee defaultConfig.gas_prices g = 1000000) ∧
    (100 < g → gasFee defaultConfig.gas_prices g = g * 10000) := by
  constructor
  · intro h
    simp [gasFee, defaultConfig, h]
  · intro h
    have h2 : ¬ g ≤ 100 := by omega
    simp only [gasFee, defaultConfig, if_neg h2]
    have h3 : g * 655360000 = g * 10000 * 65536 := by ring
    rw [h3, Nat.mul_div_cancel]
    omega

/-- Witness for C6 at the concrete gas charges of the test suite: 1387
units cost 13870000 and 50 units cost the flat price 1000000. -/
theorem gasFee_flat_or_linear_witness :
    gasFee defaultConfig.gas_prices 1387 = 13870000 ∧
    gasFee defaultConfig.gas_prices 50 = 1000000 := by
  constructor
  · have h := (gasFee_flat_or_linear 1387).2 (by omega)
    omega
  · exact (gasFee_flat_or_linear 50).1 (by omega)

/-- C7: for every forward fee F the mine share plus the remaining share
equal F exactly, the mine share being floor(F * first_frac / 2^16); under
the default configuration a 10000000 forward fee splits into mine 3333282
and remaining 6666718. -/
theorem fwd_fee_mine_split (F : Nat) :
    mineFee defaultConfig.fwd_prices F + (F - mineFee defaultConfig.fwd_prices F) = F ∧
    mineFee defaultConfig.fwd_prices F = F * 21845 / 65536 ∧
    mineFee defaultConfig.fwd_prices 10000000 = 3333282 ∧
    10000000 - mineFee defaultConfig.fwd_prices 10000000 = 10000000 - 3333282 := by
  have hle : mineFee defaultConfig.fwd_prices F ≤ F := by
    have h1 : F * 21845 ≤ F * 65536 := Nat.mul_le_mul_left F (by omega)
    have h2 : F * 21845 / 65536 ≤ F * 65536 / 65536 := Nat.div_le_div_right h1
    have h3 : F * 65536 / 65536 = F := Nat.mul_div_cancel F (by omega)
    simpa [mineFee, defaultConfig, h3] using h2
  refine ⟨by omega, by simp [mineFee, defaultConfig], by decide, by decide⟩

/-- C8: the credit_first flag of the returned transaction description
always equals the credit_first argument passed to execute, whatever the
message kind and phase outcomes. -/
theorem credit_first_recorded (cfg : BlockchainConfig) (inp : ExecutorInputs)
    (block_ut : Nat) (cf : Bool) :
    (executeOrd cfg inp block_ut cf).descr.credit_first = cf := by
  unfold executeOrd
  dsimp only
  repeat' split <;> try rfl

/-- C9: the debug/trace toggle reaches the engine only through its trace
flag, so the set-up engines for the two settings agree on every
deterministic input (code, control registers, stack, gas) and any
interpreter that is a function of those inputs returns identical results
for both settings. -/
theorem set_debug_no_observable_effect (s : VMSetup) (b1 b2 : Bool)
    (run : Slice × Option SaveList × Option (List StackItem) × Option Gas → VmOutcome) :
    run ((s.set_debug b1).create).detInputs =
      run ((s.set_debug b2).create).detInputs := by
  cases b1 <;> cases b2 <;> rfl

/-- C1 counterexample: in the bad-code scenario the action phase is
absent (compute failed), yet total_fees is not storage_fee + gas_fee
alone: the 10000000 forward fee of the inbound external message is also
collected, as the test suite pins with total fees 302159103. -/
theorem total_fees_claim_counterexample :
    badCodeTrans.descr.action = none ∧
    badCodeTrans.storageFeesCollected = 285179103 ∧
    badCodeTrans.computeGasFees = 6980000 ∧
    badCodeTrans.dueFeesCollected = 0 ∧
    badCodeTrans.actionMineFees = 0 ∧
    badCodeTrans.total_fees = 302159103 ∧
    badCodeTrans.total_fees ≠
      badCodeTrans.storageFeesCollected + badCodeTrans.computeGasFees := by
  decide

/-- C1 amended: total_fees decomposes as the storage fees collected,
plus the credit-phase due fees when applicable, plus the forward fee of
the inbound external message (when it was charged, i.e. whenever the
compute phase was not skipped for lack of gas), plus the recorded gas
fees, plus the mine fees of all completed send actions. -/
theorem total_fees_decomposition (cfg : BlockchainConfig)
    (inp : ExecutorInputs) (block_ut : Nat) (cf : Bool) :
    (executeOrd cfg inp block_ut cf).total_fees =
      (executeOrd cfg inp block_ut cf).storageFeesCollected +
      (executeOrd cfg inp block_ut cf).dueFeesCollected +
      (if (executeOrd cfg inp block_ut cf).descr.compute_ph =
          TrComputePhase.skipped ComputeSkipReason.noGas then 0
       else inFwdFeeOf cfg inp) +
      (executeOrd cfg inp block_ut cf).computeGasFees +
      (executeOrd cfg inp block_ut cf).actionMineFees := by
  unfold executeOrd
  dsimp only
  repeat' split
  all_goals simp only [Transaction.storageFeesCollected, Transaction.dueFeesCollected,
      Transaction.computeGasFees, Transaction.actionMineFees, dueCollectedOf]
  all_goals (try (first | rfl | omega))
  all_goals simp_all

/-- C4 counterexample: in the bad-code scenario the claim predicts
total_fees = 285179103 + 698 * 10000 and an account changed only by the
storage charge; the executor (as pinned by the test) returns total fees
302159103 and leaves the persisted account balance entirely unchanged at
2000000000. -/
theorem bad_code_claim_counterexample :
    badCodeTrans.total_fees = 302159103 ∧
    (302159103 : Nat) ≠ 285179103 + 698 * 10000 ∧
    badCodeTrans.end_balance = 2000000000 ∧
    badCodeTrans.end_balance ≠ 2000000000 - 285179103 := by
  decide

/-- C4 amended: the bad-code scenario produces compute-phase exit code
9, success false, gas used 698 at fee 6980000, gas credit 10000,
aborted, no action phase, storage fee 285179103 collected with nothing
due, total_fees = storage_fee + 698 * 10000 + the 10000000 forward fee
of the inbound external message, and the persisted account left entirely
unchanged. -/
theorem bad_code_scenario :
    badCodeTrans.descr.compute_ph =
      TrComputePhase.vm false 9 698 0 (some 10000) (698 * 10000) ∧
    badCodeTrans.descr.aborted = true ∧
    badCodeTrans.descr.action = none ∧
    badCodeTrans.descr.credit_ph = none ∧
    badCodeTrans.descr.storage_ph = some ⟨285179103, 0⟩ ∧
    badCodeTrans.total_fees = 285179103 + 698 * 10000 + 10000000 ∧
    badCodeTrans.out_msgs = [] ∧
    badCodeTrans.end_balance = badCodeInputs.acc.balance := by
  decide

/-- C5: the correct-code scenario produces compute success with gas used
1307, an action phase with success, valid, two actions, two messages
created, total forward fees 20000000, total action fees 6666564, storage
fee 289434515, total_fees = in-forward fee + storage + 1307 * 10000 +
two mine fees, and both outbound messages leave with their value reduced
by the forward fee and their forward-fee header set to the remaining
share 6666718. -/
theorem code1_scenario :
    code1Trans.descr.compute_ph =
      TrComputePhase.vm true 0 1307 0 (some 10000) (1307 * 10000) ∧
    code1Trans.descr.action =
      some ⟨true, true, 2, 2, 2 * 10000000, 2 * 3333282⟩ ∧
    code1Trans.descr.storage_ph = some ⟨289434515, 0⟩ ∧
    code1Trans.descr.aborted = false ∧
    code1Trans.total_fees = 10000000 + 289434515 + 1307 * 10000 + 2 * 3333282 ∧
    code1Trans.out_msgs =
      [ { header := .internal 0x11 0x33 (50000000 - 10000000) false 0
            (10000000 - 3333282) (BLOCK_LT + 2) BLOCK_UT, body := none }
      , { header := .internal 0x11 0x33 (100000000 - 10000000) true 0
            (10000000 - 3333282) (BLOCK_LT + 3) BLOCK_UT, body := none } ] := by
  decide

/-- C3: when the committed action list begins with a send in all-balance
mode (bit 128 of the mode set) and the phases up to it are payable, the
transaction is not aborted, the compute phase is recorded successful,
the persisted account balance is exactly 0, and exactly one outbound
message is produced: every action queued after the all-balance send —
whatever it is — is ignored. -/
theorem send_all_balance_semantics (cfg : BlockchainConfig)
    (inp : ExecutorInputs) (block_ut : Nat) (cf : Bool)
    (mode : Nat) (m : Message) (bits cells : Nat) (rest : List OutAction)
    (cid : Nat)
    (hcode : inp.acc.code = some cid)
    (hsucc : inp.vm.success = true)
    (hacts : inp.vm.actions = OutAction.sendMsg mode m bits cells :: rest)
    (hmode : ¬ mode.land 128 = 0)
    (himport : inFwdFeeOf cfg inp ≤ (storageCreditPhases inp cf).balance)
    (hfwd : msgFwdFee cfg.fwd_prices bits cells ≤
      (storageCreditPhases inp cf).balance - inFwdFeeOf cfg inp -
        min ((storageCreditPhases inp cf).balance - inFwdFeeOf cfg inp)
          (gasFee cfg.gas_prices inp.vm.gas_used)) :
    (executeOrd cfg inp block_ut cf).descr.aborted = false ∧
    (executeOrd cfg inp block_ut cf).end_balance = 0 ∧
    (executeOrd cfg inp block_ut cf).out_msgs.length = 1 ∧
    ((executeOrd cfg inp block_ut cf).descr.action).map TrActionPhase.success =
      some true ∧
    (executeOrd cfg inp block_ut cf).descr.compute_ph =
      TrComputePhase.vm true inp.vm.exit_code inp.vm.gas_used 0
        (if inp.msg.isExtIn then some cfg.gas_prices.gas_credit else none)
        (gasFee cfg.gas_prices inp.vm.gas_used) := by
  unfold executeOrd
  dsimp only
  rw [if_neg (Nat.not_lt.mpr himport), hcode]
  try dsimp only
  rw [hacts, hsucc]
  try dsimp only [if_true]
  unfold processActions
  rw [if_neg hmode]
  try dsimp only [ActState.start]
  rw [if_neg (Nat.not_lt.mpr hfwd)]
  simp [hsucc]

/-- Witness for C3 at the send-all scenario of the test suite: balance
zeroed, a single outbound message despite the queued second send, not
aborted and compute successful. -/
theorem send_all_balance_semantics_witness :
    sendAllTrans.descr.aborted = false ∧
    sendAllTrans.end_balance = 0 ∧
    sendAllTrans.out_msgs.length = 1 ∧
    (sendAllTrans.descr.action).map TrActionPhase.success = some true ∧
    sendAllTrans.descr.compute_ph =
      TrComputePhase.vm true 0 1500 0 (some 10000) 15000000 := by
  have h := send_all_balance_semantics defaultConfig sendAllInputs BLOCK_UT false
    128 (create_int_msg 0x11 0x22 10000000000 false (BLOCK_LT + 2)) 0 0
    [OutAction.sendMsg 10 (create_int_msg 0x11 0x22 0 false (BLOCK_LT + 2)) 0 0] 1
    rfl rfl rfl (by decide) (by decide) (by decide)
  unfold sendAllTrans
  exact ⟨h.1, h.2.1, h.2.2.1, h.2.2.2.1, h.2.2.2.2.trans (by decide)⟩

/-- C10: an internal message of value v against an active account with
zero balance and no prior debt, credit_first false, does not abort when
v covers the fees: the compute phase is recorded successful and the
persisted balance is exactly v minus the storage fee minus the gas fee —
both charges are paid out of the incoming value. -/
theorem zero_balance_internal_execution (cfg : BlockchainConfig)
    (inp : ExecutorInputs) (block_ut : Nat)
    (src dst v : Nat) (bounce : Bool) (ihr ffee lt cat : Nat) (cid : Nat)
    (hmsg : inp.msg.header = MsgHeader.internal src dst v bounce ihr ffee lt cat)
    (hbal : inp.acc.balance = 0) (hdue : inp.acc.due_payment = 0)
    (hcode : inp.acc.code = some cid)
    (hsucc : inp.vm.success = true) (hacts : inp.vm.actions = [])
    (hv : inp.storage_fee + gasFee cfg.gas_prices inp.vm.gas_used ≤ v) :
    (executeOrd cfg inp block_ut false).descr.aborted = false ∧
    (executeOrd cfg inp block_ut false).descr.compute_ph =
      TrComputePhase.vm true inp.vm.exit_code inp.vm.gas_used 0 none
        (gasFee cfg.gas_prices inp.vm.gas_used) ∧
    (executeOrd cfg inp block_ut false).end_balance =
      v - inp.storage_fee - gasFee cfg.gas_prices inp.vm.gas_used := by
  have hext : inp.msg.isExtIn = false := by
    simp [Message.isExtIn, hmsg]
  have hval : inp.msg.valueGrams = v := by
    simp [Message.valueGrams, hmsg]
  have hfee : inp.storage_fee ≤ v := by omega
  have hpre : storageCreditPhases inp false =
      ⟨v - inp.storage_fee, 0, 0, some ⟨inp.storage_fee, v - inp.storage_fee⟩⟩ := by
    simp [storageCreditPhases, storagePhase, creditPhase, hext, hbal, hdue,
      hval, Nat.min_eq_left hfee]
  have hgle : gasFee cfg.gas_prices inp.vm.gas_used ≤ v - inp.storage_fee := by
    omega
  unfold executeOrd
  dsimp only
  rw [hpre]
  dsimp only
  rw [hcode]
  dsimp only
  simp only [inFwdFeeOf, hext, Bool.false_eq_true, if_false, Nat.sub_zero,
    Nat.not_lt_zero, Nat.min_eq_right hgle, hsucc, hacts]
  unfold processActions
  simp [hsucc, hext, ActState.start]

/-- Witness for C10 at the zero-balance scenario of the test suite: the
final balance is 1000000000 - 76796891 - 1000000 and the transaction is
not aborted. -/
theorem zero_balance_internal_execution_witness :
    zeroBalanceTrans.descr.aborted = false ∧
    zeroBalanceTrans.descr.compute_ph =
      TrComputePhase.vm true 0 50 0 none 1000000 ∧
    zeroBalanceTrans.end_balance = 1000000000 - 76796891 - 1000000 := by
  have h := zero_balance_internal_execution defaultConfig zeroBalanceInputs
    BLOCK_UT 0x33 0x11 1000000000 false 0 INTERNAL_FWD_FEE 0 0 1
    rfl rfl rfl rfl rfl rfl (by decide)
  unfold zeroBalanceTrans
  exact ⟨h.1, h.2.1.trans (by decide), h.2.2.trans (by decide)⟩

end TonExec
